import Mathlib

/-!
Shallow embedding of the analytics core of the metric-tree repository
(src/backend/metrics.py, root_cause.py, simulation.py, model.py), and
verification of the specification's claims about it.

Conventions of the embedding:
* A pandas DataFrame of per-record rows is a `List Record`; filtering by
  week, per-column means and sums are ordinary list operations over `ℚ`.
* Python float arithmetic is modelled exactly over `ℚ`/`ℝ`; `round(x, n)`
  is modelled as exact round-half-up to `n` decimals (no claim settled here
  depends on the tie direction of banker's rounding or on float error).
* `np.exp` is `Real.exp`; the 2-decimal scores produced by the sigmoid are
  exact rationals, so everything downstream of the sigmoid lives in `ℚ`.
* Python exceptions are `Except PyError`; the `ValueError("No data found
  for week ...")` of `calculate_week_metrics` (the spec's NotFoundError)
  is `PyError.noDataForWeek`.
-/

/-- One raw record of the table: fields `week`, `pick_time`, `pack_time`,
`dispatch_delay`, `error_count` (see `load_data` in src/backend/metrics.py). -/
structure Record where
  week : Int
  pick_time : ℚ
  pack_time : ℚ
  dispatch_delay : ℚ
  error_count : ℚ
deriving DecidableEq, Inhabited

/-- A table of raw records (a loaded DataFrame). -/
abbrev Table := List Record

/-- The Python exceptions the embedded core can raise. -/
inductive PyError where
  /-- Models the ValueError with message No data found for week ... raised by
  `calculate_week_metrics`; the spec's NotFoundError. -/
  | noDataForWeek (week : Int)
  /-- Models the ValueError raised by sklearn's `StandardScaler.fit_transform` /
  `IsolationForest.fit` when given zero samples. -/
  | emptyFitInput
deriving DecidableEq

/-- Exact round-half-up to 2 decimals on rationals, modelling Python
`round(x, 2)`. -/
def round2 (q : ℚ) : ℚ := (round (q * 100) : ℚ) / 100

/-- Exact round-half-up to 2 decimals on a real value, producing the exact
rational that models the resulting Python float. -/
noncomputable def round2R (x : ℝ) : ℚ := (round (x * 100) : ℚ) / 100

/-- Round to 4 decimals, modelling `round(x, 4)`. -/
def round4 (q : ℚ) : ℚ := (round (q * 10000) : ℚ) / 10000

/-- Round to 1 decimal, modelling `round(x, 1)`. -/
def round1 (q : ℚ) : ℚ := (round (q * 10) : ℚ) / 10

/-- Round to 6 decimals, modelling `round(x, 6)`. -/
def round6 (q : ℚ) : ℚ := (round (q * 1000000) : ℚ) / 1000000

/-- Mean of a list of rationals, modelling `Series.mean()` on a nonempty
column slice. -/
def listMean (l : List ℚ) : ℚ := l.sum / (l.length : ℚ)

/-- Embeds the slice of the table matching one week. -/
def weekSlice (tbl : Table) (w : Int) : Table :=
  tbl.filter (fun r => decide (r.week = w))

/-- Holds when the week has at least one record (the slice is nonempty). -/
def hasWeek (tbl : Table) (w : Int) : Bool :=
  !(weekSlice tbl w).isEmpty

/-- Embeds `WEIGHTS["picking"]` from src/backend/metrics.py. -/
def WEIGHTS_picking : ℚ := 0.4

/-- Embeds `WEIGHTS["packing"]`. -/
def WEIGHTS_packing : ℚ := 0.3

/-- Embeds `WEIGHTS["dispatch"]`. -/
def WEIGHTS_dispatch : ℚ := 0.3

/-- One benchmark threshold triple of the `BENCHMARKS` dict. -/
structure BenchTriple where
  excellent : ℚ
  good : ℚ
  poor : ℚ
deriving DecidableEq

/-- Embeds `BENCHMARKS["pick_time"]`. -/
def BENCHMARKS_pick_time : BenchTriple := ⟨10, 20, 35⟩

/-- Embeds `BENCHMARKS["pack_time"]`. -/
def BENCHMARKS_pack_time : BenchTriple := ⟨8, 18, 30⟩

/-- Embeds `BENCHMARKS["dispatch_delay"]`. -/
def BENCHMARKS_dispatch_delay : BenchTriple := ⟨5, 15, 25⟩

/-- Embeds `BENCHMARKS["error_rate"]`. -/
def BENCHMARKS_error_rate : BenchTriple := ⟨0.1, 0.5, 1.5⟩

/-- The `BENCHMARKS` dict as an association list, in declaration order. -/
def BENCHMARKS : List (String × BenchTriple) :=
  [("pick_time", BENCHMARKS_pick_time),
   ("pack_time", BENCHMARKS_pack_time),
   ("dispatch_delay", BENCHMARKS_dispatch_delay),
   ("error_rate", BENCHMARKS_error_rate)]

/-- Embeds `_sigmoid_score(value, target, scale=10.0)` from src/backend/metrics.py:
`round(100 / (1 + np.exp(-(target - value) / 10)), 2)`. -/
noncomputable def _sigmoid_score (value target : ℚ) : ℚ :=
  round2R (100 / (1 + Real.exp (-(((target : ℝ)) - ((value : ℝ))) / 10)))

/-- Embeds `_compute_scores(avg_pick, avg_pack, avg_dispatch)`: the three sigmoid
sub-scores against the "good" benchmarks and the rounded weighted composite. -/
noncomputable def _compute_scores (avg_pick avg_pack avg_dispatch : ℚ) :
    ℚ × ℚ × ℚ × ℚ :=
  let picking_score := _sigmoid_score avg_pick BENCHMARKS_pick_time.good
  let packing_score := _sigmoid_score avg_pack BENCHMARKS_pack_time.good
  let dispatch_score := _sigmoid_score avg_dispatch BENCHMARKS_dispatch_delay.good
  let delivery_score :=
    WEIGHTS_picking * picking_score +
    WEIGHTS_packing * packing_score +
    WEIGHTS_dispatch * dispatch_score
  (picking_score, packing_score, dispatch_score, round2 delivery_score)

/-- Two-decimal integer-part formatting of a rational that already has at
most two decimals, approximating Python's f-string `:.2f` (claims never
inspect the digits of a message, only fixed sentences). -/
def fmt2 (q : ℚ) : String :=
  let n : Int := round (q * 100)
  let sign := if n < 0 then "-" else ""
  let m := n.natAbs
  let r := m % 100
  sign ++ toString (m / 100) ++ "." ++ (if r < 10 then "0" else "") ++ toString r

/-- An `Alert` value object. -/
structure Alert where
  metric : String
  level : String
  value : ℚ
  threshold : ℚ
  message : String
deriving DecidableEq

/-- Embeds `ALERT_THRESHOLDS` as `(metric, warning, critical)` triples in
declaration order. -/
def ALERT_THRESHOLDS : List (String × ℚ × ℚ) :=
  [("delivery_score", 60, 40),
   ("error_rate", 0.8, 1.5),
   ("picking_score", 55, 35),
   ("packing_score", 55, 35),
   ("dispatch_score", 55, 35)]

/-- Embeds `metrics.get(metric)` on the metric-values mapping, modelled as an
association-list lookup. -/
def lookupMetric (metrics : List (String × ℚ)) (name : String) : Option ℚ :=
  (metrics.find? (fun p => p.1 == name)).map (fun p => p.2)

/-- The level expression of `_generate_alerts`: two-tier direction-aware
thresholding (`critical`/`warning`/none). -/
def _alert_level (is_low_good : Bool) (critical warning value : ℚ) : Option String :=
  if is_low_good then
    if value ≤ critical then some "critical"
    else if value ≤ warning then some "warning"
    else none
  else
    if value ≥ critical then some "critical"
    else if value ≥ warning then some "warning"
    else none

/-- The `title()`-cased metric label with underscores replaced by spaces, used in
alert messages. -/
def metricTitle (metric : String) : String :=
  " ".intercalate ((metric.splitOn ("_")).map String.capitalize)

/-- Embeds `_generate_alerts(metrics)` from src/backend/metrics.py. -/
def _generate_alerts (metrics : List (String × ℚ)) : List Alert :=
  ALERT_THRESHOLDS.filterMap (fun t =>
    let metric := t.1
    let warning := t.2.1
    let critical := t.2.2
    match lookupMetric metrics metric with
    | none => none
    | some value =>
      let is_low_good := metric != "error_rate"
      match _alert_level is_low_good critical warning value with
      | none => none
      | some level =>
        let threshold := if level == "critical" then critical else warning
        some { metric := metric
               level := level
               value := round2 value
               threshold := threshold
               message := metricTitle metric ++ " is " ++ level.toUpper ++ ": " ++
                 fmt2 value ++ " (" ++ (if is_low_good then "below" else "above") ++
                 " threshold of " ++ fmt2 threshold ++ ")" })

/-- A `BenchmarkRating` value object. -/
structure BenchmarkRating where
  metric : String
  value : ℚ
  rating : String
  percentile_estimate : ℚ
deriving DecidableEq

/-- Embeds `_benchmark_metric(name, value)` from src/backend/metrics.py. -/
def _benchmark_metric (name : String) (value : ℚ) : BenchmarkRating :=
  let thresholds := ((BENCHMARKS.find? (fun p => p.1 == name)).map
    (fun p => p.2)).getD ⟨0, 0, 0⟩
  let lower_is_better :=
    name ∈ ["pick_time", "pack_time", "dispatch_delay", "error_rate"]
  let rp : String × ℚ :=
    if lower_is_better then
      if value ≤ thresholds.excellent then ("excellent", 90)
      else if value ≤ thresholds.good then ("good", 70)
      else if value ≤ thresholds.poor then ("average", 40)
      else ("poor", 15)
    else
      if value ≥ thresholds.excellent then ("excellent", 90)
      else if value ≥ thresholds.good then ("good", 70)
      else if value ≥ thresholds.poor then ("average", 40)
      else ("poor", 15)
  { metric := name, value := round2 value, rating := rp.1,
    percentile_estimate := rp.2 }

/-- A `Forecast` value object. -/
structure Forecast where
  metric : String
  next_week_value : ℚ
  trend : String
  slope : ℚ
  r_squared : ℚ
  confidence : String
deriving DecidableEq

/-- Embeds `scipy.stats.linregress` of a series against index positions `0..n-1`:
returns `(slope, intercept, r_squared)`.  `r_value ** 2` is expressed
directly as `sxy² / (sxx·syy)`, which equals the square of scipy's
`r = sxy / sqrt(sxx·syy)`; for a constant series scipy defines `r = 0`,
which coincides with rational division by zero being zero. -/
def _linregress (ys : List ℚ) : ℚ × ℚ × ℚ :=
  let n : ℚ := ys.length
  let xs := (List.range ys.length).map (fun i => (i : ℚ))
  let xbar := xs.sum / n
  let ybar := ys.sum / n
  let sxx := (xs.map (fun x => (x - xbar) ^ 2)).sum
  let syy := (ys.map (fun y => (y - ybar) ^ 2)).sum
  let sxy := ((xs.zip ys).map (fun p => (p.1 - xbar) * (p.2 - ybar))).sum
  let slope := sxy / sxx
  (slope, ybar - slope * xbar, sxy ^ 2 / (sxx * syy))

/-- Embeds `_forecast_metric(series, metric_name)` from src/backend/metrics.py. -/
def _forecast_metric (series : List ℚ) (metric_name : String) : Option Forecast :=
  if series.length < 3 then none
  else
    let lr := _linregress series
    let slope := lr.1
    let intercept := lr.2.1
    let r_squared := lr.2.2
    let next_value := intercept + slope * (series.length : ℚ)
    let trend :=
      if |slope| ≤ 0.5 then "stable"
      else if slope < 0 then "improving" else "degrading"
    let confidence :=
      if r_squared > 0.7 then "high"
      else if r_squared > 0.4 then "medium" else "low"
    some { metric := metric_name, next_week_value := round2 next_value,
           trend := trend, slope := round4 slope, r_squared := round4 r_squared,
           confidence := confidence }

/-- The `WeekMetrics` dataclass. -/
structure WeekMetrics where
  week : Int
  picking_score : ℚ
  packing_score : ℚ
  dispatch_score : ℚ
  delivery_score : ℚ
  error_rate : ℚ
  sample_size : Nat
  alerts : List Alert
  benchmarks : List BenchmarkRating
  forecasts : List Forecast

/-- Embeds `df_week["pick_time"].mean()` for the given week. -/
def avgPick (tbl : Table) (w : Int) : ℚ :=
  listMean ((weekSlice tbl w).map Record.pick_time)

/-- Embeds `df_week["pack_time"].mean()` for the given week. -/
def avgPack (tbl : Table) (w : Int) : ℚ :=
  listMean ((weekSlice tbl w).map Record.pack_time)

/-- Embeds `df_week["dispatch_delay"].mean()` for the given week. -/
def avgDispatch (tbl : Table) (w : Int) : ℚ :=
  listMean ((weekSlice tbl w).map Record.dispatch_delay)

/-- Embeds `df_week["error_count"].sum() / len(df_week)` for the given week. -/
def errorRate (tbl : Table) (w : Int) : ℚ :=
  ((weekSlice tbl w).map Record.error_count).sum / ((weekSlice tbl w).length : ℚ)

/-- Sorted distinct weeks `≤ w` of the table:
`df[df["week"] <= week].groupby("week")` keys in ascending order. -/
def weeksUpTo (tbl : Table) (w : Int) : List Int :=
  List.insertionSort (· ≤ ·) (((tbl.map Record.week).filter
    (fun v => decide (v ≤ w))).dedup)

/-- The chronologically ordered weekly means of one column up to and
including week `w`: `history[col].mean().sort_index()`. -/
def seriesFor (tbl : Table) (w : Int) (col : Record → ℚ) : List ℚ :=
  (weeksUpTo tbl w).map (fun wk => listMean ((weekSlice tbl wk).map col))

/-- The columns forecast by `calculate_week_metrics`, in order. -/
def forecastCols : List (String × (Record → ℚ)) :=
  [("pick_time", Record.pick_time),
   ("pack_time", Record.pack_time),
   ("dispatch_delay", Record.dispatch_delay)]

/-- The body of `calculate_week_metrics` past its not-found guard (the slice
for `week` is nonempty). -/
noncomputable def computeWeekMetricsCore (week : Int) (tbl : Table) : WeekMetrics :=
  let avg_pick := avgPick tbl week
  let avg_pack := avgPack tbl week
  let avg_dispatch := avgDispatch tbl week
  let error_rate := errorRate tbl week
  let scores := _compute_scores avg_pick avg_pack avg_dispatch
  let picking_score := scores.1
  let packing_score := scores.2.1
  let dispatch_score := scores.2.2.1
  let delivery_score := scores.2.2.2
  { week := week
    picking_score := picking_score
    packing_score := packing_score
    dispatch_score := dispatch_score
    delivery_score := delivery_score
    error_rate := round2 error_rate
    sample_size := (weekSlice tbl week).length
    alerts := _generate_alerts
      [("delivery_score", delivery_score),
       ("picking_score", picking_score),
       ("packing_score", packing_score),
       ("dispatch_score", dispatch_score),
       ("error_rate", error_rate)]
    benchmarks :=
      [_benchmark_metric "pick_time" avg_pick,
       _benchmark_metric "pack_time" avg_pack,
       _benchmark_metric "dispatch_delay" avg_dispatch,
       _benchmark_metric "error_rate" error_rate]
    forecasts := forecastCols.filterMap
      (fun c => _forecast_metric (seriesFor tbl week c.2) c.1) }

/-- Embeds `calculate_week_metrics(week, df)` from src/backend/metrics.py: raises
`ValueError` (the spec's NotFoundError) when no record matches `week`. -/
noncomputable def calculate_week_metrics (week : Int) (tbl : Table) :
    Except PyError WeekMetrics :=
  if (weekSlice tbl week).isEmpty then .error (.noDataForWeek week)
  else .ok (computeWeekMetricsCore week tbl)

lemma calculate_week_metrics_of_hasWeek {tbl : Table} {w : Int}
    (h : hasWeek tbl w = true) :
    calculate_week_metrics w tbl = .ok (computeWeekMetricsCore w tbl) := by
  unfold calculate_week_metrics
  unfold hasWeek at h
  simp only [Bool.not_eq_true'] at h
  simp [h]

lemma calculate_week_metrics_of_not_hasWeek {tbl : Table} {w : Int}
    (h : hasWeek tbl w = false) :
    calculate_week_metrics w tbl = .error (.noDataForWeek w) := by
  unfold calculate_week_metrics
  unfold hasWeek at h
  simp only [Bool.not_eq_false'] at h
  simp [h]

lemma computeWeekMetricsCore_delivery (w : Int) (tbl : Table) :
    (computeWeekMetricsCore w tbl).delivery_score =
      round2 (WEIGHTS_picking * (computeWeekMetricsCore w tbl).picking_score +
        WEIGHTS_packing * (computeWeekMetricsCore w tbl).packing_score +
        WEIGHTS_dispatch * (computeWeekMetricsCore w tbl).dispatch_score) := rfl

/-- Claim C1: for every week present in the table, `calculate_week_metrics`
returns without raising, and the returned `delivery_score` equals
`0.4*picking_score + 0.3*packing_score + 0.3*dispatch_score` rounded to
2 decimals. -/
theorem claim_C1 (tbl : Table) (w : Int) (h : hasWeek tbl w = true) :
    ∃ m : WeekMetrics, calculate_week_metrics w tbl = .ok m ∧
      m.delivery_score =
        round2 ((0.4 : ℚ) * m.picking_score + (0.3 : ℚ) * m.packing_score +
          (0.3 : ℚ) * m.dispatch_score) :=
  ⟨computeWeekMetricsCore w tbl, calculate_week_metrics_of_hasWeek h,
    computeWeekMetricsCore_delivery w tbl⟩

/-- A one-record one-week witness table. -/
def tblW1 : Table := [⟨1, 15, 10, 8, 1⟩]

/-- Witness for C1 at a concrete table containing week 1. -/
theorem claim_C1_witness :
    ∃ m : WeekMetrics, calculate_week_metrics 1 tblW1 = .ok m ∧
      m.delivery_score =
        round2 ((0.4 : ℚ) * m.picking_score + (0.3 : ℚ) * m.packing_score +
          (0.3 : ℚ) * m.dispatch_score) :=
  claim_C1 tblW1 1 (by decide)

lemma round2R_eq_of_bounds (x : ℝ) (n : ℤ) (h1 : (n : ℝ) ≤ x * 100 + 1/2)
    (h2 : x * 100 + 1/2 < (n : ℝ) + 1) : round2R x = (n : ℚ) / 100 := by
  have hfl : ⌊x * 100 + 1/2⌋ = n := Int.floor_eq_iff.mpr ⟨h1, h2⟩
  unfold round2R
  rw [round_eq, hfl]

lemma exp_twenty_ge : (1048576 : ℝ) ≤ Real.exp 20 := by
  have e1 : (2 : ℝ) ≤ Real.exp 1 := by
    have := Real.add_one_le_exp (1 : ℝ); linarith
  have h := pow_le_pow_left₀ (by norm_num : (0:ℝ) ≤ 2) e1 20
  calc (1048576 : ℝ) = 2 ^ 20 := by norm_num
    _ ≤ Real.exp 1 ^ 20 := h
    _ = Real.exp 20 := by
        rw [← Real.exp_nat_mul]; norm_num

/-- A within-week mean exactly at the "good" benchmark scores exactly 50. -/
lemma sigmoid_self (t : ℚ) : _sigmoid_score t t = 50 := by
  unfold _sigmoid_score
  rw [sub_self, neg_zero, zero_div, Real.exp_zero]
  have : (100 : ℝ) / (1 + 1) = 50 := by norm_num
  rw [this]
  have h := round2R_eq_of_bounds (50 : ℝ) 5000 (by norm_num) (by norm_num)
  rw [h]; norm_num

/-- A raw mean at least 200 below the target saturates the rounded sigmoid
at 100. -/
lemma sigmoid_eq_hundred {v t : ℚ} (h : 200 ≤ t - v) : _sigmoid_score v t = 100 := by
  unfold _sigmoid_score
  have hd : (200 : ℝ) ≤ (t : ℝ) - (v : ℝ) := by
    have : ((200 : ℚ) : ℝ) ≤ ((t - v : ℚ) : ℝ) := by exact_mod_cast h
    push_cast at this; linarith
  set e := Real.exp (-((t : ℝ) - (v : ℝ)) / 10) with he
  have hepos : 0 < e := Real.exp_pos _
  have hele : e ≤ (1048576 : ℝ)⁻¹ := by
    have h1 : -((t : ℝ) - (v : ℝ)) / 10 ≤ -20 := by linarith
    have h2 : e ≤ Real.exp (-20) := by
      rw [he]; exact Real.exp_le_exp.mpr h1
    have h3 : Real.exp (-20) = (Real.exp 20)⁻¹ := Real.exp_neg 20
    have h4 : (Real.exp 20)⁻¹ ≤ (1048576 : ℝ)⁻¹ := by
      apply inv_anti₀ (by norm_num) exp_twenty_ge
    rw [h3] at h2; linarith
  have hpos : (0 : ℝ) < 1 + e := by linarith
  have hup : 100 / (1 + e) * 100 + 1/2 < (10000 : ℝ) + 1 := by
    have : 100 / (1 + e) * 100 < 10000 := by
      rw [div_mul_eq_mul_div, div_lt_iff₀ hpos]; nlinarith
    linarith
  have hlo : ((10000 : ℤ) : ℝ) ≤ 100 / (1 + e) * 100 + 1/2 := by
    have : (9999.5 : ℝ) ≤ 10000 / (1 + e) := by
      rw [le_div_iff₀ hpos]; nlinarith
    have heq : 100 / (1 + e) * 100 = 10000 / (1 + e) := by ring
    push_cast; rw [heq]; linarith
  have h := round2R_eq_of_bounds (100 / (1 + e)) 10000 hlo (by push_cast at hup ⊢; linarith)
  rw [h]; norm_num

/-- A raw mean at least 200 above the target saturates the rounded sigmoid
at 0. -/
lemma sigmoid_eq_zero {v t : ℚ} (h : 200 ≤ v - t) : _sigmoid_score v t = 0 := by
  unfold _sigmoid_score
  have hd : (200 : ℝ) ≤ (v : ℝ) - (t : ℝ) := by
    have : ((200 : ℚ) : ℝ) ≤ ((v - t : ℚ) : ℝ) := by exact_mod_cast h
    push_cast at this; linarith
  set e := Real.exp (-((t : ℝ) - (v : ℝ)) / 10) with he
  have hege : (1048576 : ℝ) ≤ e := by
    have h1 : (20 : ℝ) ≤ -((t : ℝ) - (v : ℝ)) / 10 := by linarith
    have h2 : Real.exp 20 ≤ e := by
      rw [he]; exact Real.exp_le_exp.mpr h1
    linarith [exp_twenty_ge]
  have hpos : (0 : ℝ) < 1 + e := by linarith
  have hxpos : (0 : ℝ) < 100 / (1 + e) * 100 := by positivity
  have hup : 100 / (1 + e) * 100 + 1/2 < ((0 : ℤ) : ℝ) + 1 := by
    have : 100 / (1 + e) * 100 < 1/2 := by
      rw [div_mul_eq_mul_div, div_lt_iff₀ hpos]; nlinarith
    push_cast; linarith
  have hlo : ((0 : ℤ) : ℝ) ≤ 100 / (1 + e) * 100 + 1/2 := by
    push_cast; linarith
  have h := round2R_eq_of_bounds (100 / (1 + e)) 0 hlo hup
  rw [h]; norm_num

lemma computeWeekMetricsCore_picking (w : Int) (tbl : Table) :
    (computeWeekMetricsCore w tbl).picking_score =
      _sigmoid_score (avgPick tbl w) 20 := rfl

lemma computeWeekMetricsCore_packing (w : Int) (tbl : Table) :
    (computeWeekMetricsCore w tbl).packing_score =
      _sigmoid_score (avgPack tbl w) 18 := rfl

lemma computeWeekMetricsCore_dispatch (w : Int) (tbl : Table) :
    (computeWeekMetricsCore w tbl).dispatch_score =
      _sigmoid_score (avgDispatch tbl w) 15 := rfl

/-- Claim C4: each sub-score produced by `calculate_week_metrics` equals
`100 / (1 + e^(-(target - value)/10))` rounded to 2 decimals, where `value`
is the within-week mean of the raw timing and `target` is that metric's
"good" benchmark; in particular a within-week mean exactly equal to the
target yields a score of 50. -/
theorem claim_C4 (tbl : Table) (w : Int) (h : hasWeek tbl w = true) :
    ∃ m : WeekMetrics, calculate_week_metrics w tbl = .ok m ∧
      m.picking_score =
        round2R (100 / (1 + Real.exp (-((20 : ℝ) - (avgPick tbl w : ℚ)) / 10))) ∧
      m.packing_score =
        round2R (100 / (1 + Real.exp (-((18 : ℝ) - (avgPack tbl w : ℚ)) / 10))) ∧
      m.dispatch_score =
        round2R (100 / (1 + Real.exp (-((15 : ℝ) - (avgDispatch tbl w : ℚ)) / 10))) ∧
      (avgPick tbl w = 20 → m.picking_score = 50) ∧
      (avgPack tbl w = 18 → m.packing_score = 50) ∧
      (avgDispatch tbl w = 15 → m.dispatch_score = 50) := by
  refine ⟨computeWeekMetricsCore w tbl, calculate_week_metrics_of_hasWeek h,
    ?_, ?_, ?_, ?_, ?_, ?_⟩
  · rw [computeWeekMetricsCore_picking]; unfold _sigmoid_score; norm_num
  · rw [computeWeekMetricsCore_packing]; unfold _sigmoid_score; norm_num
  · rw [computeWeekMetricsCore_dispatch]; unfold _sigmoid_score; norm_num
  · intro hv; rw [computeWeekMetricsCore_picking, hv]; exact sigmoid_self 20
  · intro hv; rw [computeWeekMetricsCore_packing, hv]; exact sigmoid_self 18
  · intro hv; rw [computeWeekMetricsCore_dispatch, hv]; exact sigmoid_self 15

/-- A witness table whose week-1 means sit exactly at the three "good"
benchmarks. -/
def tblC4 : Table := [⟨1, 20, 18, 15, 0⟩]

/-- Witness for C4 at a concrete table containing week 1. -/
theorem claim_C4_witness :
    ∃ m : WeekMetrics, calculate_week_metrics 1 tblC4 = .ok m ∧
      m.picking_score =
        round2R (100 / (1 + Real.exp (-((20 : ℝ) - (avgPick tblC4 1 : ℚ)) / 10))) ∧
      m.packing_score =
        round2R (100 / (1 + Real.exp (-((18 : ℝ) - (avgPack tblC4 1 : ℚ)) / 10))) ∧
      m.dispatch_score =
        round2R (100 / (1 + Real.exp (-((15 : ℝ) - (avgDispatch tblC4 1 : ℚ)) / 10))) ∧
      (avgPick tblC4 1 = 20 → m.picking_score = 50) ∧
      (avgPack tblC4 1 = 18 → m.packing_score = 50) ∧
      (avgDispatch tblC4 1 = 15 → m.dispatch_score = 50) :=
  claim_C4 tblC4 1 (by decide)

/-- An `ImpactFactor` value object from src/backend/root_cause.py. -/
structure ImpactFactor where
  metric : String
  previous : ℚ
  current : ℚ
  change : ℚ
  weight : ℚ
  weighted_impact : ℚ
  direction : String
deriving DecidableEq, Inhabited

/-- A `RootCauseReport` value object. -/
structure RootCauseReport where
  kpi : String
  current_week : Int
  previous_week : Int
  previous_score : ℚ
  current_score : ℚ
  total_drop : ℚ
  main_driver : String
  drivers : List ImpactFactor
  verdict : String

/-- The sort key of `drivers.sort(key=lambda x: x.weighted_impact)`. -/
def impactLe (a b : ImpactFactor) : Prop := a.weighted_impact ≤ b.weighted_impact

instance : DecidableRel impactLe := fun a b =>
  inferInstanceAs (Decidable (a.weighted_impact ≤ b.weighted_impact))

instance : IsTotal ImpactFactor impactLe :=
  ⟨fun a b => le_total a.weighted_impact b.weighted_impact⟩

instance : IsTrans ImpactFactor impactLe :=
  ⟨fun _ _ _ h h' => le_trans h h'⟩

/-- One entry of the `drivers` list built by `root_cause_analysis`. -/
def mkImpact (metric : String) (weight curr prev : ℚ) : ImpactFactor :=
  let change := curr - prev
  { metric := metric
    previous := prev
    current := curr
    change := round2 change
    weight := weight
    weighted_impact := round2 (weight * change)
    direction :=
      if change > 0 then "improving"
      else if change < 0 then "degrading" else "stable" }

/-- Embeds `_generate_verdict(drop, drivers, error_rate)` from
src/backend/root_cause.py.  Numeric interpolations use the 2-decimal
formatter; `drivers` is already sorted ascending by weighted impact. -/
def _generate_verdict (drop : ℚ) (drivers : List ImpactFactor)
    (error_rate : ℚ) : String :=
  if drop ≤ 0 then
    "Performance improved week-over-week. No corrective action required."
  else
    let worst := drivers.headI
    let severity :=
      if drop > 15 then "critically"
      else if drop > 8 then "significantly" else "moderately"
    let metric_label :=
      " ".intercalate (((worst.metric.replace ("_score") ("")).splitOn ("_")))
    let error_note :=
      if error_rate > 0.8 then
        " High error rate (" ++ fmt2 error_rate ++ ") may be compounding the issue."
      else ""
    "Delivery score dropped " ++ severity ++ " by " ++ fmt2 drop ++ " points. " ++
      metricTitle metric_label ++ " was the primary driver (impact: " ++
      (if worst.weighted_impact < 0 then "" else "+") ++ fmt2 worst.weighted_impact ++
      ")." ++ error_note ++ " Investigate " ++ metric_label ++ " operations first."

/-- The body of `root_cause_analysis` once both weeks' metrics are available. -/
def rootCauseCore (current_week previous_week : Int)
    (current previous : WeekMetrics) : RootCauseReport :=
  let drivers :=
    [mkImpact "picking_score" WEIGHTS_picking current.picking_score previous.picking_score,
     mkImpact "packing_score" WEIGHTS_packing current.packing_score previous.packing_score,
     mkImpact "dispatch_score" WEIGHTS_dispatch current.dispatch_score previous.dispatch_score]
  let sorted := List.insertionSort impactLe drivers
  let total_drop := round2 (previous.delivery_score - current.delivery_score)
  { kpi := "Delivery Timeliness"
    current_week := current_week
    previous_week := previous_week
    previous_score := previous.delivery_score
    current_score := current.delivery_score
    total_drop := total_drop
    main_driver := sorted.headI.metric
    drivers := sorted
    verdict := _generate_verdict total_drop sorted current.error_rate }

/-- Embeds `root_cause_analysis(current_week, previous_week, df)` from
src/backend/root_cause.py; both `calculate_week_metrics` failures propagate. -/
noncomputable def root_cause_analysis (current_week previous_week : Int)
    (tbl : Table) : Except PyError RootCauseReport :=
  match calculate_week_metrics current_week tbl with
  | .error e => .error e
  | .ok current =>
    match calculate_week_metrics previous_week tbl with
    | .error e => .error e
    | .ok previous => .ok (rootCauseCore current_week previous_week current previous)

/-- A `ScenarioResult` value object from src/backend/simulation.py. -/
structure ScenarioResult where
  label : String
  order_increase_pct : ℚ
  picking_score : ℚ
  packing_score : ℚ
  dispatch_score : ℚ
  delivery_score : ℚ
  delivery_delta : ℚ
  risk_level : String
deriving DecidableEq

/-- A `LoadSimulationReport` value object. -/
structure LoadSimulationReport where
  kpi : String
  base_week : Int
  baseline_delivery : ℚ
  scenarios : List ScenarioResult
  breaking_point_pct : Option ℚ

/-- Embeds `_risk_level(delivery_score)` from src/backend/simulation.py. -/
def _risk_level (delivery_score : ℚ) : String :=
  if delivery_score ≥ 70 then "low"
  else if delivery_score ≥ 55 then "moderate"
  else if delivery_score ≥ 40 then "high" else "critical"

/-- Embeds `_apply_load(base_score, increase_factor, elasticity)`:
`round(base_score / increase_factor ** elasticity, 2)`, with `**` the real
power function. -/
noncomputable def _apply_load (base_score increase_factor elasticity : ℚ) : ℚ :=
  round2R ((base_score : ℝ) / ((increase_factor : ℝ)) ^ ((elasticity : ℝ)))

/-- The default scenario label, a formatted percent string. -/
def defaultLabel (pct : ℚ) : String :=
  "+" ++ toString (round pct) ++ "% orders"

/-- The body of `simulate_scenario` once the base week's metrics are
available. -/
noncomputable def scenarioCore (m : WeekMetrics) (order_increase_pct : ℚ)
    (label : Option String) (picking_elasticity dispatch_elasticity : ℚ) :
    ScenarioResult :=
  let increase_factor := 1 + order_increase_pct / 100
  let new_picking := _apply_load m.picking_score increase_factor picking_elasticity
  let new_dispatch := _apply_load m.dispatch_score increase_factor dispatch_elasticity
  let new_delivery := round2
    (WEIGHTS_picking * new_picking +
     WEIGHTS_packing * m.packing_score +
     WEIGHTS_dispatch * new_dispatch)
  { label := label.getD (defaultLabel order_increase_pct)
    order_increase_pct := order_increase_pct
    picking_score := new_picking
    packing_score := m.packing_score
    dispatch_score := new_dispatch
    delivery_score := new_delivery
    delivery_delta := round2 (new_delivery - m.delivery_score)
    risk_level := _risk_level new_delivery }

/-- Embeds `simulate_scenario(week, order_increase_pct, label, picking_elasticity,
dispatch_elasticity, df)` from src/backend/simulation.py. -/
noncomputable def simulate_scenario (week : Int) (order_increase_pct : ℚ)
    (label : Option String) (picking_elasticity dispatch_elasticity : ℚ)
    (tbl : Table) : Except PyError ScenarioResult :=
  match calculate_week_metrics week tbl with
  | .error e => .error e
  | .ok m => .ok (scenarioCore m order_increase_pct label
      picking_elasticity dispatch_elasticity)

/-- The list comprehension
`[simulate_scenario(week, pct, df=df) for pct in increments]`, with the
default elasticities 1.0 and 1.2 and exception propagation. -/
noncomputable def gatherScenarios (week : Int) (tbl : Table) :
    List ℚ → Except PyError (List ScenarioResult)
  | [] => .ok []
  | pct :: rest =>
    match simulate_scenario week pct none 1 (6/5) tbl with
    | .error e => .error e
    | .ok s =>
      match gatherScenarios week tbl rest with
      | .error e => .error e
      | .ok ss => .ok (s :: ss)

/-- Embeds `simulate_load_range(week, increments, df)` from
src/backend/simulation.py. -/
noncomputable def simulate_load_range (week : Int) (increments : List ℚ)
    (tbl : Table) : Except PyError LoadSimulationReport :=
  match calculate_week_metrics week tbl with
  | .error e => .error e
  | .ok base =>
    match gatherScenarios week tbl increments with
    | .error e => .error e
    | .ok scenarios =>
      .ok { kpi := "Delivery Timeliness"
            base_week := week
            baseline_delivery := base.delivery_score
            scenarios := scenarios
            breaking_point_pct :=
              (scenarios.find? (fun s => decide (s.delivery_score < 40))).map
                (fun s => s.order_increase_pct) }

/-- Claim C2: for every week with no matching records, `calculate_week_metrics`
fails with the not-found error, and `root_cause_analysis`,
`simulate_scenario` and `simulate_load_range` fail with the same propagated
error when any week they are given is absent from the table. -/
theorem claim_C2 (tbl : Table) (w : Int) (h : hasWeek tbl w = false) :
    calculate_week_metrics w tbl = .error (.noDataForWeek w) ∧
    (∀ w' : Int, root_cause_analysis w w' tbl = .error (.noDataForWeek w)) ∧
    (∀ w' : Int, ∃ wk : Int,
      root_cause_analysis w' w tbl = .error (.noDataForWeek wk)) ∧
    (∀ (pct : ℚ) (label : Option String) (pe de : ℚ),
      simulate_scenario w pct label pe de tbl = .error (.noDataForWeek w)) ∧
    (∀ incs : List ℚ,
      simulate_load_range w incs tbl = .error (.noDataForWeek w)) := by
  have hc := calculate_week_metrics_of_not_hasWeek h
  refine ⟨hc, ?_, ?_, ?_, ?_⟩
  · intro w'
    unfold root_cause_analysis
    rw [hc]
  · intro w'
    unfold root_cause_analysis
    cases hw' : calculate_week_metrics w' tbl with
    | error e =>
      have : ∃ m, calculate_week_metrics w' tbl = .ok m ∨
          calculate_week_metrics w' tbl = .error (.noDataForWeek w') := by
        unfold calculate_week_metrics
        by_cases hemp : (weekSlice tbl w').isEmpty
        · exact ⟨computeWeekMetricsCore w' tbl, Or.inr (by simp [hemp])⟩
        · exact ⟨computeWeekMetricsCore w' tbl, Or.inl (by simp [hemp])⟩
      obtain ⟨m, hm | hm⟩ := this
      · rw [hw'] at hm; cases hm
      · rw [hw'] at hm
        refine ⟨w', ?_⟩
        simp only [hw']
        injection hm with h'
        rw [h']
    | ok m =>
      refine ⟨w, ?_⟩
      simp only [hw', hc]
  · intro pct label pe de
    unfold simulate_scenario
    rw [hc]
  · intro incs
    unfold simulate_load_range
    rw [hc]

/-- Witness for C2: week 2 is absent from the one-week witness table. -/
theorem claim_C2_witness :
    calculate_week_metrics 2 tblW1 = .error (.noDataForWeek 2) ∧
    (∀ w' : Int, root_cause_analysis 2 w' tblW1 = .error (.noDataForWeek 2)) ∧
    (∀ w' : Int, ∃ wk : Int,
      root_cause_analysis w' 2 tblW1 = .error (.noDataForWeek wk)) ∧
    (∀ (pct : ℚ) (label : Option String) (pe de : ℚ),
      simulate_scenario 2 pct label pe de tblW1 = .error (.noDataForWeek 2)) ∧
    (∀ incs : List ℚ,
      simulate_load_range 2 incs tblW1 = .error (.noDataForWeek 2)) :=
  claim_C2 tblW1 2 (by decide)

/-- Subtracting two exact 2-decimal values and re-rounding to 2 decimals
loses nothing. -/
lemma round2_sub_round2 (a b : ℚ) :
    round2 (round2 a - round2 b) = round2 a - round2 b := by
  unfold round2
  set m := round (a * 100) with hm
  set n := round (b * 100) with hn
  have h1 : ((m : ℚ) / 100 - (n : ℚ) / 100) * 100 = ((m - n : ℤ) : ℚ) := by
    push_cast; ring
  rw [h1, round_intCast]
  push_cast; ring

lemma rootCauseCore_total_drop (cw pw : Int) (mc mp : WeekMetrics) :
    (rootCauseCore cw pw mc mp).total_drop =
      round2 (mp.delivery_score - mc.delivery_score) := rfl

/-- Claim C5: for every pair of weeks present in the table,
`root_cause_analysis` returns `total_drop` equal to the previous week's
delivery score minus the current week's delivery score exactly,
`main_driver` equal to the metric of a driver of minimum `weighted_impact`,
and, whenever `total_drop ≤ 0`, the improvement verdict with no corrective
action required. -/
theorem claim_C5 (tbl : Table) (cw pw : Int)
    (hcw : hasWeek tbl cw = true) (hpw : hasWeek tbl pw = true) :
    ∃ (r : RootCauseReport) (mc mp : WeekMetrics),
      root_cause_analysis cw pw tbl = .ok r ∧
      calculate_week_metrics cw tbl = .ok mc ∧
      calculate_week_metrics pw tbl = .ok mp ∧
      r.total_drop = mp.delivery_score - mc.delivery_score ∧
      (∃ d ∈ r.drivers, r.main_driver = d.metric ∧
        ∀ d' ∈ r.drivers, d.weighted_impact ≤ d'.weighted_impact) ∧
      (r.total_drop ≤ 0 →
        r.verdict =
          "Performance improved week-over-week. No corrective action required.") := by
  have hcc := calculate_week_metrics_of_hasWeek hcw
  have hpp := calculate_week_metrics_of_hasWeek hpw
  set mc := computeWeekMetricsCore cw tbl with hmc
  set mp := computeWeekMetricsCore pw tbl with hmp
  have hr : root_cause_analysis cw pw tbl = .ok (rootCauseCore cw pw mc mp) := by
    unfold root_cause_analysis
    rw [hcc, hpp]
  refine ⟨rootCauseCore cw pw mc mp, mc, mp, hr, hcc, hpp, ?_, ?_, ?_⟩
  · rw [rootCauseCore_total_drop]
    rw [computeWeekMetricsCore_delivery cw tbl, computeWeekMetricsCore_delivery pw tbl]
    exact round2_sub_round2 _ _
  · set L :=
      [mkImpact "picking_score" WEIGHTS_picking mc.picking_score mp.picking_score,
       mkImpact "packing_score" WEIGHTS_packing mc.packing_score mp.packing_score,
       mkImpact "dispatch_score" WEIGHTS_dispatch mc.dispatch_score mp.dispatch_score]
      with hL
    have hdrivers : (rootCauseCore cw pw mc mp).drivers =
        List.insertionSort impactLe L := rfl
    have hmain : (rootCauseCore cw pw mc mp).main_driver =
        (List.insertionSort impactLe L).headI.metric := rfl
    have hsorted := List.sorted_insertionSort impactLe L
    have hperm := List.perm_insertionSort impactLe L
    cases hcase : List.insertionSort impactLe L with
    | nil =>
      exfalso
      have := hperm.length_eq
      rw [hcase] at this
      simp [hL] at this
    | cons d rest =>
      rw [hcase] at hsorted
      rw [List.sorted_cons] at hsorted
      refine ⟨d, ?_, ?_, ?_⟩
      · rw [hdrivers, hcase]; exact List.mem_cons_self d rest
      · rw [hmain, hcase]; rfl
      · intro d' hd'
        rw [hdrivers, hcase] at hd'
        rcases List.mem_cons.mp hd' with h | h
        · rw [h]
        · exact hsorted.1 d' h
  · intro h0
    have hv : (rootCauseCore cw pw mc mp).verdict =
        _generate_verdict (rootCauseCore cw pw mc mp).total_drop
          (List.insertionSort impactLe
            [mkImpact "picking_score" WEIGHTS_picking mc.picking_score mp.picking_score,
             mkImpact "packing_score" WEIGHTS_packing mc.packing_score mp.packing_score,
             mkImpact "dispatch_score" WEIGHTS_dispatch mc.dispatch_score mp.dispatch_score])
          mc.error_rate := rfl
    rw [hv]
    unfold _generate_verdict
    rw [if_pos h0]

/-- A two-week witness table. -/
def tblC5 : Table := [⟨1, 15, 10, 8, 1⟩, ⟨2, 16, 11, 9, 0⟩]

/-- Witness for C5 at a concrete two-week table. -/
theorem claim_C5_witness :
    ∃ (r : RootCauseReport) (mc mp : WeekMetrics),
      root_cause_analysis 2 1 tblC5 = .ok r ∧
      calculate_week_metrics 2 tblC5 = .ok mc ∧
      calculate_week_metrics 1 tblC5 = .ok mp ∧
      r.total_drop = mp.delivery_score - mc.delivery_score ∧
      (∃ d ∈ r.drivers, r.main_driver = d.metric ∧
        ∀ d' ∈ r.drivers, d.weighted_impact ≤ d'.weighted_impact) ∧
      (r.total_drop ≤ 0 →
        r.verdict =
          "Performance improved week-over-week. No corrective action required.") :=
  claim_C5 tblC5 2 1 (by decide) (by decide)

/-- The alert level `_generate_alerts` assigns to a single monitored metric
value (none when no alert is emitted for it). -/
def alertLevelOf (metric : String) (v : ℚ) : Option String :=
  ((_generate_alerts [(metric, v)]).find? (fun a => a.metric == metric)).map
    (fun a => a.level)

/-- Severity order of alert levels: none < warning < critical. -/
def levelRank : Option String → ℕ
  | some s => if s == "critical" then 2 else if s == "warning" then 1 else 0
  | none => 0

/-- The critical threshold of a monitored metric in `ALERT_THRESHOLDS`. -/
def critThresholdOf (metric : String) : ℚ :=
  (((ALERT_THRESHOLDS.find? (fun t => t.1 == metric)).map (fun t => t.2.2)).getD 0)

lemma alertLevelOf_delivery (v : ℚ) :
    alertLevelOf "delivery_score" v = _alert_level true 40 60 v := by
  unfold alertLevelOf _generate_alerts ALERT_THRESHOLDS lookupMetric
  cases hl : _alert_level true 40 60 v with
  | none => simp [hl]
  | some level => simp [hl]

lemma alertLevelOf_picking (v : ℚ) :
    alertLevelOf "picking_score" v = _alert_level true 35 55 v := by
  unfold alertLevelOf _generate_alerts ALERT_THRESHOLDS lookupMetric
  cases hl : _alert_level true 35 55 v with
  | none => simp [hl]
  | some level => simp [hl]

lemma alertLevelOf_packing (v : ℚ) :
    alertLevelOf "packing_score" v = _alert_level true 35 55 v := by
  unfold alertLevelOf _generate_alerts ALERT_THRESHOLDS lookupMetric
  cases hl : _alert_level true 35 55 v with
  | none => simp [hl]
  | some level => simp [hl]

lemma alertLevelOf_dispatch (v : ℚ) :
    alertLevelOf "dispatch_score" v = _alert_level true 35 55 v := by
  unfold alertLevelOf _generate_alerts ALERT_THRESHOLDS lookupMetric
  cases hl : _alert_level true 35 55 v with
  | none => simp [hl]
  | some level => simp [hl]

lemma alertLevelOf_error_rate (v : ℚ) :
    alertLevelOf "error_rate" v = _alert_level false 1.5 0.8 v := by
  unfold alertLevelOf _generate_alerts ALERT_THRESHOLDS lookupMetric
  cases hl : _alert_level false 1.5 0.8 v with
  | none => simp [hl]
  | some level => simp [hl]

lemma alert_mono_low (c wn v v' : ℚ) (h : v' ≤ v) :
    levelRank (_alert_level true c wn v) ≤ levelRank (_alert_level true c wn v') := by
  unfold _alert_level
  split_ifs <;> first | decide | (exfalso; first | linarith | simp_all)

lemma alert_mono_high (c wn v v' : ℚ) (h : v ≤ v') :
    levelRank (_alert_level false c wn v) ≤ levelRank (_alert_level false c wn v') := by
  unfold _alert_level
  split_ifs <;> first | decide | (exfalso; first | linarith | simp_all)

lemma alert_critical_low (c wn v : ℚ) (h : v ≤ c) :
    _alert_level true c wn v = some "critical" := by
  unfold _alert_level
  rw [if_pos rfl, if_pos h]

lemma alert_critical_high (c wn v : ℚ) (h : c ≤ v) :
    _alert_level false c wn v = some "critical" := by
  unfold _alert_level
  simp only [Bool.false_eq_true, if_false]
  rw [if_pos h]

/-- Claim C8: for a fixed "higher is better" score metric, alert generation
is monotone in severity: every value at or below the critical threshold
yields level "critical", and moving the value further past the critical
threshold never downgrades the alert level; symmetrically for `error_rate`
with inverted polarity. -/
theorem claim_C8 (metric : String)
    (hm : metric ∈ ["delivery_score", "picking_score", "packing_score",
      "dispatch_score"]) (v v' : ℚ) :
    (v ≤ critThresholdOf metric → alertLevelOf metric v = some "critical") ∧
    (v' ≤ v →
      levelRank (alertLevelOf metric v) ≤ levelRank (alertLevelOf metric v')) ∧
    ((1.5 : ℚ) ≤ v → alertLevelOf "error_rate" v = some "critical") ∧
    (v ≤ v' →
      levelRank (alertLevelOf "error_rate" v) ≤
        levelRank (alertLevelOf "error_rate" v')) := by
  have herr1 : (1.5 : ℚ) ≤ v → alertLevelOf "error_rate" v = some "critical" := by
    intro hv
    rw [alertLevelOf_error_rate]
    exact alert_critical_high _ _ _ hv
  have herr2 : v ≤ v' →
      levelRank (alertLevelOf "error_rate" v) ≤
        levelRank (alertLevelOf "error_rate" v') := by
    intro hv
    rw [alertLevelOf_error_rate, alertLevelOf_error_rate]
    exact alert_mono_high _ _ _ _ hv
  fin_cases hm
  · refine ⟨?_, ?_, herr1, herr2⟩
    · intro hv
      rw [alertLevelOf_delivery]
      refine alert_critical_low _ _ _ ?_
      have hcrit : critThresholdOf "delivery_score" = 40 := by decide
      rw [hcrit] at hv; exact hv
    · intro hv
      rw [alertLevelOf_delivery, alertLevelOf_delivery]
      exact alert_mono_low _ _ _ _ hv
  · refine ⟨?_, ?_, herr1, herr2⟩
    · intro hv
      rw [alertLevelOf_picking]
      refine alert_critical_low _ _ _ ?_
      have hcrit : critThresholdOf "picking_score" = 35 := by decide
      rw [hcrit] at hv; exact hv
    · intro hv
      rw [alertLevelOf_picking, alertLevelOf_picking]
      exact alert_mono_low _ _ _ _ hv
  · refine ⟨?_, ?_, herr1, herr2⟩
    · intro hv
      rw [alertLevelOf_packing]
      refine alert_critical_low _ _ _ ?_
      have hcrit : critThresholdOf "packing_score" = 35 := by decide
      rw [hcrit] at hv; exact hv
    · intro hv
      rw [alertLevelOf_packing, alertLevelOf_packing]
      exact alert_mono_low _ _ _ _ hv
  · refine ⟨?_, ?_, herr1, herr2⟩
    · intro hv
      rw [alertLevelOf_dispatch]
      refine alert_critical_low _ _ _ ?_
      have hcrit : critThresholdOf "dispatch_score" = 35 := by decide
      rw [hcrit] at hv; exact hv
    · intro hv
      rw [alertLevelOf_dispatch, alertLevelOf_dispatch]
      exact alert_mono_low _ _ _ _ hv

/-- Witness for C8 on the picking score at concrete values 30 and 20. -/
theorem claim_C8_witness :
    ((30 : ℚ) ≤ critThresholdOf "picking_score" →
      alertLevelOf "picking_score" 30 = some "critical") ∧
    ((20 : ℚ) ≤ (30 : ℚ) →
      levelRank (alertLevelOf "picking_score" 30) ≤
        levelRank (alertLevelOf "picking_score" 20)) ∧
    ((1.5 : ℚ) ≤ (30 : ℚ) → alertLevelOf "error_rate" 30 = some "critical") ∧
    ((30 : ℚ) ≤ (20 : ℚ) →
      levelRank (alertLevelOf "error_rate" 30) ≤
        levelRank (alertLevelOf "error_rate" 20)) :=
  claim_C8 "picking_score" (by decide) 30 20

lemma linregress_example : _linregress [0, 10, 20] = (10, 0, 1) := by
  unfold _linregress
  norm_num [List.range_succ]

/-- Counterexample to claim C7 as stated: `_forecast_metric` labels a
positive slope "degrading" irrespective of the metric name, so for the
score-type metric name "picking_score" a strongly increasing series is
labelled "degrading", not "improving". -/
theorem claim_C7_counterexample :
    ∃ f : Forecast, _forecast_metric [0, 10, 20] "picking_score" = some f ∧
      (0.5 : ℚ) < f.slope ∧ f.trend = "degrading" ∧ f.trend ≠ "improving" := by
  refine ⟨⟨"picking_score", 30, "degrading", 10, 1, "high"⟩, ?_, by norm_num, rfl,
    by decide⟩
  unfold _forecast_metric
  rw [if_neg (by norm_num)]
  rw [linregress_example]
  have h30 : round2 (0 + 10 * (([0, 10, 20] : List ℚ).length : ℚ)) = 30 := by
    norm_num [round2, round_eq]
  have h10 : round4 (10 : ℚ) = 10 := by
    norm_num [round4, round_eq]
  have h1 : round4 (1 : ℚ) = 1 := by
    norm_num [round4, round_eq]
  simp only [h30, h10, h1]
  norm_num

/-- Claim C7 (amended): for every series of at least 3 points, the trend
label is "stable" when `|slope| ≤ 0.5`, and otherwise a negative slope is
labelled "improving" and a positive slope "degrading", irrespective of the
metric name; the only metrics ever forecast are the lower-is-better raw
timings, for which positive slope = "degrading" matches the goodness
direction. -/
theorem claim_C7 (series : List ℚ) (name : String) (h : 3 ≤ series.length) :
    ∃ f : Forecast, _forecast_metric series name = some f ∧
      (|(_linregress series).1| ≤ 0.5 → f.trend = "stable") ∧
      ((_linregress series).1 < -0.5 → f.trend = "improving") ∧
      ((0.5 : ℚ) < (_linregress series).1 → f.trend = "degrading") := by
  unfold _forecast_metric
  rw [if_neg (not_lt.mpr h)]
  refine ⟨_, rfl, ?_, ?_, ?_⟩
  · intro hs
    simp only [if_pos hs]
  · intro hs
    have habs : ¬(|(_linregress series).1| ≤ 0.5) := by
      rw [abs_le]; push_neg; intro hc; exfalso; linarith
    have hneg : (_linregress series).1 < 0 := by linarith
    simp only [if_neg habs, if_pos hneg]
  · intro hs
    have habs : ¬(|(_linregress series).1| ≤ 0.5) := by
      rw [abs_le]; push_neg; intro _; linarith
    have hneg : ¬((_linregress series).1 < 0) := by linarith
    simp only [if_neg habs, if_neg hneg]

/-- Witness for the amended C7 on a concrete 3-point series. -/
theorem claim_C7_witness :
    ∃ f : Forecast, _forecast_metric [0, 10, 20] "pick_time" = some f ∧
      (|(_linregress [0, 10, 20]).1| ≤ 0.5 → f.trend = "stable") ∧
      ((_linregress [0, 10, 20]).1 < -0.5 → f.trend = "improving") ∧
      ((0.5 : ℚ) < (_linregress [0, 10, 20]).1 → f.trend = "degrading") :=
  claim_C7 [0, 10, 20] "pick_time" (by decide)

/-- The `_frange(start, stop, step)` generator loop of
src/backend/simulation.py, run with explicit fuel: each iteration checks
`val <= stop`, yields `val`, and continues at `val + step`; exhausted fuel
models an unfinished (possibly diverging) loop. -/
def frangeRun (fuel : ℕ) (val stop step : ℚ) : List ℚ :=
  match fuel with
  | 0 => []
  | n + 1 => if val ≤ stop then val :: frangeRun n (val + step) stop step else []

/-- The `_frange` loop terminates from `start` iff some iterate exceeds
`stop` (the loop guard eventually fails). -/
def frangeTerminates (start stop step : ℚ) : Prop :=
  ∃ n : ℕ, stop < start + (n : ℚ) * step

/-- The `stress_test` increment list
`[round(i, 1) for i in _frange(step, max_increase + step, step)]`, with the
generator run on the given fuel. -/
def stress_test_increments (fuel : ℕ) (step max_increase : ℚ) : List ℚ :=
  (frangeRun fuel step (max_increase + step) step).map round1

/-- Embeds `stress_test(week, step, max_increase, df)` from
src/backend/simulation.py, with the `_frange` generator fuel made explicit. -/
noncomputable def stress_test (fuel : ℕ) (week : Int) (step max_increase : ℚ)
    (tbl : Table) : Except PyError LoadSimulationReport :=
  simulate_load_range week (stress_test_increments fuel step max_increase) tbl

lemma frangeRun_eq_of_bound (stop step : ℚ) :
    ∀ (n : ℕ) (val : ℚ), stop < val + (n : ℚ) * step →
      ∀ f : ℕ, n ≤ f → frangeRun f val stop step = frangeRun n val stop step := by
  intro n
  induction n with
  | zero =>
    intro val hb f _
    have hguard : ¬(val ≤ stop) := by push_cast at hb; linarith
    cases f with
    | zero => rfl
    | succ f' => unfold frangeRun; rw [if_neg hguard]
  | succ n ih =>
    intro val hb f hf
    obtain ⟨f', rfl⟩ : ∃ f', f = f' + 1 := by
      cases f with
      | zero => omega
      | succ f' => exact ⟨f', rfl⟩
    by_cases hguard : val ≤ stop
    · unfold frangeRun
      rw [if_pos hguard, if_pos hguard]
      have hb' : stop < (val + step) + (n : ℚ) * step := by
        push_cast at hb ⊢; linarith
      rw [ih (val + step) hb' f' (by omega)]
    · unfold frangeRun
      rw [if_neg hguard, if_neg hguard]

lemma frangeRun_const_of_step_zero :
    ∀ (fuel : ℕ) (val stop : ℚ), val ≤ stop →
      frangeRun fuel val stop 0 = List.replicate fuel val := by
  intro fuel
  induction fuel with
  | zero => intro val stop _; rfl
  | succ n ih =>
    intro val stop h
    unfold frangeRun
    rw [if_pos h, add_zero, ih val stop h]
    rfl

lemma frangeRun_eq_range_map (stop step : ℚ) :
    ∀ (fuel : ℕ) (val : ℚ), ∃ k : ℕ,
      frangeRun fuel val stop step =
        (List.range k).map (fun i : ℕ => val + (i : ℚ) * step) := by
  intro fuel
  induction fuel with
  | zero => intro val; exact ⟨0, rfl⟩
  | succ n ih =>
    intro val
    by_cases hguard : val ≤ stop
    · obtain ⟨k', hk'⟩ := ih (val + step)
      refine ⟨k' + 1, ?_⟩
      unfold frangeRun
      rw [if_pos hguard, hk', List.range_succ_eq_map, List.map_cons, List.map_map]
      refine List.cons_eq_cons.mpr ⟨by push_cast; ring, ?_⟩
      apply List.map_congr_left
      intro i _
      simp only [Function.comp_apply]
      push_cast; ring
    · refine ⟨0, ?_⟩
      unfold frangeRun
      rw [if_neg hguard]
      rfl

/-- Claim C10: for every `step > 0` the `_frange` increment generator of
`stress_test` is finite — the produced sequence is `step, 2*step, ...` and
the run stabilizes once the running value exceeds `max_increase + step` —
so `stress_test` terminates; for `step = 0` with `max_increase ≥ 0` the
generator never terminates (every additional unit of fuel yields another
element). -/
theorem claim_C10 (step max_increase : ℚ) :
    (0 < step →
      frangeTerminates step (max_increase + step) step ∧
      (∃ fuel : ℕ, ∀ f : ℕ, fuel ≤ f →
        frangeRun f step (max_increase + step) step =
          frangeRun fuel step (max_increase + step) step) ∧
      (∀ (week : Int) (tbl : Table), ∃ fuel : ℕ, ∀ f : ℕ, fuel ≤ f →
        stress_test f week step max_increase tbl =
          stress_test fuel week step max_increase tbl) ∧
      (∀ fuel : ℕ, ∃ k : ℕ,
        frangeRun fuel step (max_increase + step) step =
          (List.range k).map (fun i : ℕ => ((i : ℚ) + 1) * step))) ∧
    (step = 0 → 0 ≤ max_increase →
      (¬ frangeTerminates step (max_increase + step) step) ∧
      (∀ fuel : ℕ, frangeRun fuel step (max_increase + step) step =
        List.replicate fuel step)) := by
  constructor
  · intro hstep
    have hterm : frangeTerminates step (max_increase + step) step := by
      obtain ⟨n, hn⟩ := exists_nat_gt (max_increase / step)
      refine ⟨n, ?_⟩
      have : max_increase < (n : ℚ) * step := by
        rw [div_lt_iff₀ hstep] at hn; linarith
      linarith
    obtain ⟨n, hn⟩ := hterm
    have hstable : ∀ f : ℕ, n ≤ f →
        frangeRun f step (max_increase + step) step =
          frangeRun n step (max_increase + step) step :=
      frangeRun_eq_of_bound _ _ n step hn
    refine ⟨⟨n, hn⟩, ⟨n, hstable⟩, ?_, ?_⟩
    · intro week tbl
      refine ⟨n, fun f hf => ?_⟩
      unfold stress_test stress_test_increments
      rw [hstable f hf]
    · intro fuel
      obtain ⟨k, hk⟩ := frangeRun_eq_range_map (max_increase + step) step fuel step
      refine ⟨k, ?_⟩
      rw [hk]
      apply List.map_congr_left
      intro i _
      ring
  · intro hstep hmax
    constructor
    · rintro ⟨n, hn⟩
      rw [hstep] at hn
      simp at hn
      linarith
    · intro fuel
      rw [hstep]
      exact frangeRun_const_of_step_zero fuel 0 (max_increase + 0) (by linarith)

/-- Witness for C10 at the concrete defaults `step = 5`, `max_increase = 100`
(positive step), and at `step = 0`, `max_increase = 100` (diverging). -/
theorem claim_C10_witness :
    frangeTerminates 5 (100 + 5) 5 ∧
    ¬ frangeTerminates 0 (100 + 0) 0 :=
  ⟨((claim_C10 5 100).1 (by norm_num)).1,
    ((claim_C10 0 100).2 rfl (by norm_num)).1⟩

/-- The feature columns used by the anomaly detector
(`FEATURES` in src/backend/model.py). -/
def FEATURES : List String :=
  ["pick_time", "pack_time", "dispatch_delay", "error_count"]

/-- Embeds `CONTAMINATION` from src/backend/model.py. -/
def CONTAMINATION : ℚ := 0.15

/-- An `Anomaly` value object from src/backend/model.py. -/
structure Anomaly where
  week : Int
  row_index : ℕ
  anomaly_score : ℚ
  severity : String
  triggered_features : List String
  values : List (String × ℚ)
  explanation : String
deriving DecidableEq, Inhabited

/-- An `AnomalyReport` value object. -/
structure AnomalyReport where
  total_records : ℕ
  anomaly_count : ℕ
  anomaly_rate : ℚ
  severity_breakdown : List (String × ℕ)
  anomalies : List Anomaly
  most_common_trigger : String

/-- Embeds `_severity(score)` from src/backend/model.py. -/
def _severity (score : ℚ) : String :=
  if score < -0.15 then "critical"
  else if score < -0.05 then "high" else "moderate"

/-- The feature row of a record, in `FEATURES` order. -/
def featureRow (r : Record) : List ℚ :=
  [r.pick_time, r.pack_time, r.dispatch_delay, r.error_count]

/-- Embeds `_find_triggered_features(row)` from src/backend/model.py. -/
def _find_triggered_features (r : Record) : List String :=
  (if r.pick_time > BENCHMARKS_pick_time.poor then ["pick_time"] else []) ++
  (if r.pack_time > BENCHMARKS_pack_time.poor then ["pack_time"] else []) ++
  (if r.dispatch_delay > BENCHMARKS_dispatch_delay.poor then ["dispatch_delay"] else []) ++
  (if r.error_count ≥ 3 then ["error_count"] else [])

/-- Embeds `_explain(triggered, severity)` from src/backend/model.py. -/
def _explain (triggered : List String) (severity : String) : String :=
  if triggered.isEmpty then
    "Unusual multivariate pattern detected (" ++ severity ++ " severity)."
  else
    severity.capitalize ++ " anomaly driven by: " ++
      ", ".intercalate (triggered.map (fun f => " ".intercalate (f.splitOn ("_")))) ++ "."

/-- The sklearn components used by `detect_anomalies`, abstracted over their
numeric behaviour on at least one sample: the standardizer's output and the
isolation forest's flags and scores are opaque model outputs (random
ensemble, out of the embedding's scope); what the embedding pins down is the
plumbing around them, including that `StandardScaler.fit_transform` (and
`IsolationForest.fit`) raise `ValueError` on an empty sample set. -/
structure SklearnPipeline where
  standardize : List (List ℚ) → List (List ℚ)
  fit_predict : ℚ → List (List ℚ) → List Int
  decision_function : List (List ℚ) → List ℚ

/-- Embeds `scaler.fit_transform(feature_matrix)`: sklearn's `check_array` with
`ensure_min_samples=1` raises `ValueError("Found array with 0 sample(s)...")`
on an empty matrix. -/
def scaler_fit_transform (P : SklearnPipeline) (m : List (List ℚ)) :
    Except PyError (List (List ℚ)) :=
  if m.isEmpty then .error .emptyFitInput else .ok (P.standardize m)

/-- Sort key of `anomalies.sort(key=lambda a: a.anomaly_score)`. -/
def anomalyLe (a b : Anomaly) : Prop := a.anomaly_score ≤ b.anomaly_score

instance : DecidableRel anomalyLe := fun a b =>
  inferInstanceAs (Decidable (a.anomaly_score ≤ b.anomaly_score))

instance : IsTotal Anomaly anomalyLe :=
  ⟨fun a b => le_total a.anomaly_score b.anomaly_score⟩

instance : IsTrans Anomaly anomalyLe :=
  ⟨fun _ _ _ h h' => le_trans h h'⟩

/-- The severity tally dict (all three levels initialised to 0). -/
def severityBreakdown (anomalies : List Anomaly) : List (String × ℕ) :=
  [("critical", (anomalies.filter (fun a => a.severity == "critical")).length),
   ("high", (anomalies.filter (fun a => a.severity == "high")).length),
   ("moderate", (anomalies.filter (fun a => a.severity == "moderate")).length)]

/-- Embeds `max(set(all_triggers), key=all_triggers.count)` with ties broken by
first occurrence, and `"none"` when no trigger exists. -/
def mostCommonTrigger (all : List String) : String :=
  match all.dedup with
  | [] => "none"
  | t :: ts => ts.foldl (fun best x => if all.count x > all.count best then x else best) t

/-- Embeds `detect_anomalies(df, contamination, week_filter)` from
src/backend/model.py. -/
def detect_anomalies (P : SklearnPipeline) (tbl : Table) (contamination : ℚ)
    (week_filter : Option Int) : Except PyError AnomalyReport :=
  let dfIdx : List (ℕ × Record) := match week_filter with
    | some w => tbl.enum.filter (fun p => decide (p.2.week = w))
    | none => tbl.enum
  let df := dfIdx.map (fun p => p.2)
  let feature_matrix := df.map featureRow
  match scaler_fit_transform P feature_matrix with
  | .error e => .error e
  | .ok scaled =>
    let flags := P.fit_predict contamination scaled
    let scores := P.decision_function scaled
    let rows := dfIdx.zip (flags.zip scores)
    let anomaly_rows := rows.filter (fun p => decide (p.2.1 = -1))
    let anomalies : List Anomaly := anomaly_rows.map (fun p =>
      let r := p.1.2
      let triggered := _find_triggered_features r
      let score := round6 p.2.2
      let severity := _severity score
      { week := r.week
        row_index := p.1.1
        anomaly_score := score
        severity := severity
        triggered_features := triggered
        values := FEATURES.zip (featureRow r)
        explanation := _explain triggered severity })
    let sorted := List.insertionSort anomalyLe anomalies
    .ok { total_records := df.length
          anomaly_count := sorted.length
          anomaly_rate :=
            if df.length > 0 then (sorted.length : ℚ) / (df.length : ℚ) else 0
          severity_breakdown := severityBreakdown sorted
          anomalies := sorted
          most_common_trigger :=
            mostCommonTrigger ((sorted.map (fun a => a.triggered_features)).flatten) }

/-- Claim C3 exhibit: on an empty scoped table — an empty table, or a
`week_filter` matching no records — `detect_anomalies` raises the sklearn
zero-samples `ValueError` instead of returning a zero-count report, for
every possible behaviour of the fitted model; the dead
`if len(df) > 0 else 0.0` guard in the source shows the zero-count report
was the intent. -/
theorem claim_C3_bug (P : SklearnPipeline) (c : ℚ) :
    detect_anomalies P ([] : Table) c none = .error .emptyFitInput ∧
    detect_anomalies P tblW1 c (some 2) = .error .emptyFitInput := by
  constructor
  · rfl
  · rfl

lemma simulate_scenario_of_hasWeek {tbl : Table} {w : Int}
    (h : hasWeek tbl w = true) (pct : ℚ) (label : Option String) (pe de : ℚ) :
    simulate_scenario w pct label pe de tbl =
      .ok (scenarioCore (computeWeekMetricsCore w tbl) pct label pe de) := by
  unfold simulate_scenario
  rw [calculate_week_metrics_of_hasWeek h]

lemma gatherScenarios_of_hasWeek {tbl : Table} {w : Int}
    (h : hasWeek tbl w = true) :
    ∀ incs : List ℚ, gatherScenarios w tbl incs =
      .ok (incs.map (fun pct =>
        scenarioCore (computeWeekMetricsCore w tbl) pct none 1 (6/5))) := by
  intro incs
  induction incs with
  | nil => rfl
  | cons pct rest ih =>
    unfold gatherScenarios
    rw [simulate_scenario_of_hasWeek h, ih]
    rfl

lemma simulate_load_range_of_hasWeek {tbl : Table} {w : Int}
    (h : hasWeek tbl w = true) (incs : List ℚ) :
    simulate_load_range w incs tbl = .ok
      { kpi := "Delivery Timeliness"
        base_week := w
        baseline_delivery := (computeWeekMetricsCore w tbl).delivery_score
        scenarios := incs.map (fun pct =>
          scenarioCore (computeWeekMetricsCore w tbl) pct none 1 (6/5))
        breaking_point_pct := ((incs.map (fun pct =>
            scenarioCore (computeWeekMetricsCore w tbl) pct none 1 (6/5))).find?
              (fun s => decide (s.delivery_score < 40))).map
            (fun s => s.order_increase_pct) } := by
  unfold simulate_load_range
  rw [calculate_week_metrics_of_hasWeek h, gatherScenarios_of_hasWeek h incs]

lemma find?_eq_some_split {α : Type} (p : α → Bool) :
    ∀ (l : List α) (a : α), l.find? p = some a →
      ∃ l₁ l₂, l = l₁ ++ a :: l₂ ∧ ∀ x ∈ l₁, p x = false := by
  intro l
  induction l with
  | nil => intro a ha; cases ha
  | cons b l ih =>
    intro a ha
    by_cases hpb : p b = true
    · rw [List.find?_cons_of_pos _ hpb] at ha
      injection ha with ha
      exact ⟨[], l, by rw [ha]; simp, by intro x hx; cases hx⟩
    · rw [List.find?_cons_of_neg _ (by simpa using hpb)] at ha
      obtain ⟨l₁, l₂, rfl, hl₁⟩ := ih a ha
      refine ⟨b :: l₁, l₂, rfl, ?_⟩
      intro x hx
      rcases List.mem_cons.mp hx with rfl | hx
      · simpa using hpb
      · exact hl₁ x hx

/-- Claim C6 (amended): for every base week present in the table and every
list of tested percentages, `simulate_load_range` runs one scenario per
tested increase in input order, and `breaking_point_pct` is the FIRST
tested increase in input order whose delivery score drops below 40 — which
is the smallest such increase whenever the tested percentages are supplied
in ascending order — and is absent exactly when no tested increase brings
the delivery score below 40. -/
theorem claim_C6 (tbl : Table) (w : Int) (incs : List ℚ)
    (h : hasWeek tbl w = true) :
    ∃ r : LoadSimulationReport, simulate_load_range w incs tbl = .ok r ∧
      r.scenarios.map (fun s => s.order_increase_pct) = incs ∧
      (r.breaking_point_pct = none ↔
        ∀ s ∈ r.scenarios, (40 : ℚ) ≤ s.delivery_score) ∧
      (∀ p : ℚ, r.breaking_point_pct = some p →
        ∃ l₁ s l₂, r.scenarios = l₁ ++ s :: l₂ ∧ s.order_increase_pct = p ∧
          s.delivery_score < 40 ∧ ∀ t ∈ l₁, (40 : ℚ) ≤ t.delivery_score) ∧
      (incs.Pairwise (· ≤ ·) → ∀ p : ℚ, r.breaking_point_pct = some p →
        ∀ s ∈ r.scenarios, s.delivery_score < 40 → p ≤ s.order_increase_pct) := by
  set m := computeWeekMetricsCore w tbl with hm
  set fn : ℚ → ScenarioResult := fun pct => scenarioCore m pct none 1 (6/5) with hfn
  set S := incs.map fn with hS
  set pred : ScenarioResult → Bool := fun s => decide (s.delivery_score < 40)
    with hpred
  have hproj : ∀ pct, (fn pct).order_increase_pct = pct := fun _ => rfl
  refine ⟨_, simulate_load_range_of_hasWeek h incs, ?_, ?_, ?_, ?_⟩
  · show S.map (fun s => s.order_increase_pct) = incs
    rw [hS, List.map_map]
    rw [show ((fun s : ScenarioResult => s.order_increase_pct) ∘ fn) = id from
      funext fun pct => hproj pct]
    exact List.map_id incs
  · show (S.find? pred).map (fun s => s.order_increase_pct) = none ↔
      ∀ s ∈ S, (40 : ℚ) ≤ s.delivery_score
    rw [Option.map_eq_none', List.find?_eq_none]
    constructor
    · intro hall s hs
      have := hall s hs
      rw [hpred] at this
      simpa [not_lt] using this
    · intro hall s hs
      rw [hpred]
      simpa [not_lt] using hall s hs
  · intro p hp
    have hp' : (S.find? pred).map (fun s => s.order_increase_pct) = some p := hp
    obtain ⟨s₀, hfind, hps₀⟩ := Option.map_eq_some'.mp hp'
    obtain ⟨l₁, l₂, hsplit, hl₁⟩ := find?_eq_some_split pred S s₀ hfind
    have hs₀lt : s₀.delivery_score < 40 := by
      have h0 := List.find?_some hfind
      rw [hpred] at h0
      simpa using h0
    refine ⟨l₁, s₀, l₂, hsplit, hps₀, hs₀lt, ?_⟩
    intro t ht
    have ht' := hl₁ t ht
    rw [hpred] at ht'
    simpa [not_lt] using ht'
  · intro hpair p hp s hs hlt
    have hp' : (S.find? pred).map (fun s => s.order_increase_pct) = some p := hp
    have hs' : s ∈ S := hs
    obtain ⟨s₀, hfind, hps₀⟩ := Option.map_eq_some'.mp hp'
    obtain ⟨l₁, l₂, hsplit, hl₁⟩ := find?_eq_some_split pred S s₀ hfind
    have hSpair : S.Pairwise
        (fun a b : ScenarioResult => a.order_increase_pct ≤ b.order_increase_pct) := by
      rw [hS, List.pairwise_map]
      exact hpair.imp (fun hab => by rw [hproj, hproj]; exact hab)
    rw [hsplit] at hs' hSpair
    rcases List.mem_append.mp hs' with hsl | hsr
    · exfalso
      have h0 := hl₁ s hsl
      rw [hpred] at h0
      simp at h0
      linarith
    · rcases List.mem_cons.mp hsr with rfl | hsl₂
      · rw [← hps₀]
      · have hcons := (List.pairwise_append.mp hSpair).2.1
        have h0 := (List.pairwise_cons.mp hcons).1 s hsl₂
        rw [← hps₀]
        exact h0

/-- Witness for the amended C6 at a concrete table and increment list. -/
theorem claim_C6_witness :
    ∃ r : LoadSimulationReport, simulate_load_range 1 [10, 20] tblW1 = .ok r ∧
      r.scenarios.map (fun s => s.order_increase_pct) = [10, 20] ∧
      (r.breaking_point_pct = none ↔
        ∀ s ∈ r.scenarios, (40 : ℚ) ≤ s.delivery_score) ∧
      (∀ p : ℚ, r.breaking_point_pct = some p →
        ∃ l₁ s l₂, r.scenarios = l₁ ++ s :: l₂ ∧ s.order_increase_pct = p ∧
          s.delivery_score < 40 ∧ ∀ t ∈ l₁, (40 : ℚ) ≤ t.delivery_score) ∧
      (([10, 20] : List ℚ).Pairwise (· ≤ ·) → ∀ p : ℚ,
        r.breaking_point_pct = some p →
        ∀ s ∈ r.scenarios, s.delivery_score < 40 → p ≤ s.order_increase_pct) :=
  claim_C6 tblW1 1 [10, 20] (by decide)

lemma round2R_ratCast (q : ℚ) : round2R ((q : ℝ)) = round2 q := by
  unfold round2R round2
  rw [show ((q : ℝ) * 100) = ((q * 100 : ℚ) : ℝ) by push_cast; ring, Rat.round_cast]

lemma apply_load_one (b f : ℚ) : _apply_load b f 1 = round2 (b / f) := by
  unfold _apply_load
  rw [Rat.cast_one, Real.rpow_one, ← Rat.cast_div, round2R_ratCast]

lemma apply_load_zero (f e : ℚ) : _apply_load 0 f e = 0 := by
  unfold _apply_load
  rw [Rat.cast_zero, zero_div, show (0 : ℝ) = ((0 : ℚ) : ℝ) by norm_num,
    round2R_ratCast]
  norm_num [round2]

lemma scenarioCore_delivery (m : WeekMetrics) (pct : ℚ) (label : Option String)
    (pe de : ℚ) :
    (scenarioCore m pct label pe de).delivery_score =
      round2 (WEIGHTS_picking * _apply_load m.picking_score (1 + pct / 100) pe +
        WEIGHTS_packing * m.packing_score +
        WEIGHTS_dispatch * _apply_load m.dispatch_score (1 + pct / 100) de) := rfl

lemma scenarioCore_pct (m : WeekMetrics) (pct : ℚ) (label : Option String)
    (pe de : ℚ) :
    (scenarioCore m pct label pe de).order_increase_pct = pct := rfl

/-- The counterexample table for C6: week 1 has picking saturated at score
100, packing exactly at its benchmark (score 50) and dispatch saturated at
score 0, so the simulated delivery score is driven by the picking term
alone. -/
def tbl6 : Table := [⟨1, -180, 18, 1000, 0⟩]

lemma tbl6_avgPick : avgPick tbl6 1 = -180 := by
  norm_num [avgPick, weekSlice, listMean, tbl6]

lemma tbl6_avgPack : avgPack tbl6 1 = 18 := by
  norm_num [avgPack, weekSlice, listMean, tbl6]

lemma tbl6_avgDispatch : avgDispatch tbl6 1 = 1000 := by
  norm_num [avgDispatch, weekSlice, listMean, tbl6]

lemma tbl6_picking : (computeWeekMetricsCore 1 tbl6).picking_score = 100 := by
  rw [computeWeekMetricsCore_picking, tbl6_avgPick]
  exact sigmoid_eq_hundred (by norm_num)

lemma tbl6_packing : (computeWeekMetricsCore 1 tbl6).packing_score = 50 := by
  rw [computeWeekMetricsCore_packing, tbl6_avgPack]
  exact sigmoid_self 18

lemma tbl6_dispatch : (computeWeekMetricsCore 1 tbl6).dispatch_score = 0 := by
  rw [computeWeekMetricsCore_dispatch, tbl6_avgDispatch]
  exact sigmoid_eq_zero (by norm_num)

lemma tbl6_scen100 :
    (scenarioCore (computeWeekMetricsCore 1 tbl6) 100 none 1 (6/5)).delivery_score
      = 35 := by
  rw [scenarioCore_delivery, tbl6_picking, tbl6_packing, tbl6_dispatch,
    apply_load_one, apply_load_zero]
  norm_num [WEIGHTS_picking, WEIGHTS_packing, WEIGHTS_dispatch, round2, round_eq]

lemma tbl6_scen80 :
    (scenarioCore (computeWeekMetricsCore 1 tbl6) 80 none 1 (6/5)).delivery_score
      = 1861/50 := by
  rw [scenarioCore_delivery, tbl6_picking, tbl6_packing, tbl6_dispatch,
    apply_load_one, apply_load_zero]
  norm_num [WEIGHTS_picking, WEIGHTS_packing, WEIGHTS_dispatch, round2, round_eq]

/-- Counterexample to claim C6 as stated: with tested percentages given in
descending order `[100, 80]`, both tested increases drop the delivery score
below 40, yet `breaking_point_pct` is 100 — the first in input order — and
not the smallest tested increase 80. -/
theorem claim_C6_counterexample :
    ∃ r : LoadSimulationReport,
      simulate_load_range 1 [100, 80] tbl6 = .ok r ∧
      r.breaking_point_pct = some 100 ∧
      ∃ s ∈ r.scenarios, s.order_increase_pct = 80 ∧ s.delivery_score < 40 ∧
        (80 : ℚ) < 100 := by
  have hw : hasWeek tbl6 1 = true := by decide
  set m6 := computeWeekMetricsCore 1 tbl6 with hm6
  set fn : ℚ → ScenarioResult := fun pct => scenarioCore m6 pct none 1 (6/5)
    with hfn
  refine ⟨_, simulate_load_range_of_hasWeek hw [100, 80], ?_, ?_⟩
  · show ((([100, 80] : List ℚ).map fn).find?
        (fun s => decide (s.delivery_score < 40))).map
        (fun s => s.order_increase_pct) = some 100
    rw [List.map_cons, List.map_cons, List.map_nil]
    rw [List.find?_cons_of_pos _ (by
      rw [decide_eq_true_eq, hfn, tbl6_scen100]; norm_num)]
    rw [Option.map_some']
    rw [hfn, scenarioCore_pct]
  · refine ⟨fn 80, ?_, ?_, ?_, by norm_num⟩
    · show fn 80 ∈ ([100, 80] : List ℚ).map fn
      rw [List.map_cons, List.map_cons, List.map_nil]
      exact List.mem_cons.mpr (Or.inr (List.mem_cons.mpr (Or.inl rfl)))
    · rw [hfn, scenarioCore_pct]
    · rw [hfn, tbl6_scen80]; norm_num
